import Mathlib

/-!
A shallow embedding of `src/superconsole.rs` (the SuperConsole render
orchestrator) and proofs of the spec's claims about it.

The core under verification is the `SuperConsole` struct and its methods
`render`, `finalize`, `emit`, `size`, `clear`, `render_with_mode` and
`render_general`.  The external collaborators (the `Canvas` frame source,
the `SuperConsoleOutput` sink, the `content` module's `Lines`/`Line`
types, and `terminal::size`) are not under `src/`; they are modelled from
the spec's interface contracts, with the modelling noted on each
definition.
-/

namespace Superconsole

/-- Opaque error values (`anyhow::Error` carries no structure the core inspects). -/
abbrev Err := String

/-- `Dimensions { x, y }`: usable terminal geometry, `x` columns and `y` rows. -/
structure Dimensions where
  x : Nat
  y : Nat
deriving DecidableEq, Repr

/-- Modelled from the spec: a `Line` from the `content` module (not under
`src/`) is an ordered sequence of styled text segments exposing a length in
grapheme units.  The core only reads its grapheme length (`Line::len`);
`tag` stands for the line's content, giving lines an identity. -/
structure Line where
  tag : Nat
  len : Nat
deriving DecidableEq, Repr

/-- `Lines`: an ordered sequence of `Line` (the `content` module's `Vec<Line>`). -/
abbrev Lines := List Line

/-- `DrawMode` from the `components` module: `Normal` for in-flight ticks,
`Final` for the one shutdown pass. -/
inductive DrawMode where
  | Normal
  | Final
deriving DecidableEq, Repr

/-- `const MINIMUM_EMIT: usize = 5;` -/
def MINIMUM_EMIT : Nat := 5

/-- `const MAX_GRAPHEME_BUFFER: usize = 1000000;` -/
def MAX_GRAPHEME_BUFFER : Nat := 1000000

/-- One item appended to the composed byte buffer: either a terminal control
sequence (cursor moves, clears) or the rendered text of one line. -/
inductive BufItem where
  | ctrl (s : String)
  | text (l : Line)
deriving DecidableEq, Repr

/-- The byte buffer composed by one pass, at item granularity. -/
abbrev Buffer := List BufItem

/-- Modelled from the spec: `LinesExt::render` from the `content` module (not
under `src/`).  Per spec 4.2 step 4 it drains up to `limit` queued lines (all
of them when `limit` is `None`), in FIFO order, appending each to the output
buffer and removing it from the queue as it is composed. -/
def Lines.render (q : Lines) (limit : Option Nat) : Buffer × Lines :=
  match limit with
  | none => (q.map BufItem.text, [])
  | some n => ((q.take n).map BufItem.text, q.drop n)

/-- Modelled from the spec: the Frame Source contract (spec 6) implemented by
`Canvas` (not under `src/`): `move_up` appends cursor-reposition bytes,
`draw` produces a Frame for a state/size/mode (and can fail), `clear`
produces the bytes that erase the drawn region (and can fail). -/
structure FrameSource (σ : Type) where
  moveUpBytes : Buffer
  draw : σ → Dimensions → DrawMode → Except Err Lines
  clearBytes : Except Err Buffer

/-- The fields of `struct SuperConsole` the core logic reads and writes:
`root` (the Canvas frame source), `to_emit` (the Pending Log Queue) and
`default_size` (fallback Dimensions).  The output sink lives in `World`. -/
structure SuperConsole (σ : Type) where
  root : FrameSource σ
  to_emit : Lines
  default_size : Option Dimensions

/-- `is_big` from `render_general`: sums the grapheme length of every queued
line and compares against `MAX_GRAPHEME_BUFFER` (strictly greater). -/
def is_big (buf : Lines) : Bool :=
  decide ((buf.map Line.len).sum > MAX_GRAPHEME_BUFFER)

/-- `SuperConsole::render_general`.  Appends the cursor-reposition bytes,
draws the frame, computes the drain limit (`None` = unbounded for `Final`
mode or an oversized queue, otherwise
`max(size.y.saturating_sub(frame.len()), MINIMUM_EMIT)`), drains the queue
into the buffer, renders the frame uncapped, and appends the
clear-from-cursor-down control sequence. -/
def SuperConsole.render_general (c : SuperConsole σ) (buffer : Buffer) (st : σ)
    (mode : DrawMode) (size : Dimensions) : Except Err (Buffer × SuperConsole σ) :=
  let buffer := buffer ++ c.root.moveUpBytes
  match c.root.draw st size mode with
  | .error e => .error e
  | .ok frame =>
    let limit : Option Nat :=
      match mode with
      | .Normal =>
        if is_big c.to_emit then none
        else some (max (size.y - frame.length) MINIMUM_EMIT)
      | .Final => none
    let (emitted, rest) := Lines.render c.to_emit limit
    let (frameBytes, _) := Lines.render frame none
    .ok (buffer ++ emitted ++ frameBytes ++ [BufItem.ctrl "Clear(FromCursorDown)"],
         { c with to_emit := rest })

/-- `SuperConsole::size`: use the live terminal size if discovery succeeded,
otherwise the configured `default_size` if present, otherwise the error. -/
def SuperConsole.size (c : SuperConsole σ) (live : Except Err Dimensions) :
    Except Err Dimensions :=
  match live with
  | .ok s => .ok s
  | .error e =>
    match c.default_size with
    | some d => .ok d
    | none => .error e

/-- The world a `SuperConsole` call runs in: the console itself plus the
modelled external environment.  `termSize n` is the result of the `n`-th
`terminal::size()` query; `should_render n` the result of the `n`-th
backpressure query; `writeResult n` whether the `n`-th sink write fails.
`handed` records every buffer handed to the sink's `output`;
`sinkFinalized` whether the sink's one-time teardown has been invoked. -/
structure World (σ : Type) where
  console : SuperConsole σ
  termSize : Nat → Except Err Dimensions
  sizeQueries : Nat
  should_render : Nat → Bool
  srCalls : Nat
  writeResult : Nat → Option Err
  writeCalls : Nat
  handed : List Buffer
  sinkFinalized : Bool
  finalizeResult : Option Err

/-- Modelled from the spec: the Output Sink's `output(buffer)` (the
`SuperConsoleOutput` impls are not under `src/`): the buffer is handed to the
sink, which either accepts it or fails. -/
def World.output (w : World σ) (buffer : Buffer) : Except Err Unit × World σ :=
  let r := w.writeResult w.writeCalls
  let w' := { w with
    writeCalls := w.writeCalls + 1
    handed := w.handed ++ [buffer] }
  match r with
  | none => (.ok (), w')
  | some e => (.error e, w')

/-- Modelled from the spec: the Output Sink's one-time teardown
(`SuperConsoleOutput::finalize`, not under `src/`). -/
def World.sinkFinalize (w : World σ) : Except Err Unit × World σ :=
  let w' := { w with sinkFinalized := true }
  match w.finalizeResult with
  | none => (.ok (), w')
  | some e => (.error e, w')

/-- `SuperConsole::render_with_mode`: query the size once (live result
`w.termSize w.sizeQueries`, resolved against the fallback by
`SuperConsole.size`), run one `render_general` pass into a fresh buffer,
hand the buffer to the sink. -/
def World.render_with_mode (w : World σ) (st : σ) (mode : DrawMode) :
    Except Err Unit × World σ :=
  match w.console.size (w.termSize w.sizeQueries) with
  | .error e => (.error e, { w with sizeQueries := w.sizeQueries + 1 })
  | .ok size =>
    match w.console.render_general [] st mode size with
    | .error e => (.error e, { w with sizeQueries := w.sizeQueries + 1 })
    | .ok (buffer, c') =>
      World.output { w with sizeQueries := w.sizeQueries + 1, console := c' } buffer

/-- The loop body of `SuperConsole::render`, with explicit fuel (the loop in
the source has no fuel; `render` supplies enough that the fuel never runs
out, see `renderLoop_fuel_irrelevant`). -/
def World.renderLoop (st : σ) (fuel : Nat) (anything_emitted has_rendered : Bool)
    (w : World σ) : Except Err Unit × World σ :=
  if !has_rendered || (anything_emitted && !w.console.to_emit.isEmpty) then
    match fuel with
    | 0 => (.ok (), w)
    | fuel + 1 =>
      let sr := w.should_render w.srCalls
      let w1 : World σ := { w with srCalls := w.srCalls + 1 }
      if !sr then (.ok (), w1)
      else
        let last_len := w1.console.to_emit.length
        match w1.render_with_mode st .Normal with
        | (.error e, w2) => (.error e, w2)
        | (.ok _, w2) =>
          World.renderLoop st fuel (last_len == w2.console.to_emit.length) true w2
  else (.ok (), w)

/-- `SuperConsole::render`: `anything_emitted` starts `true`, `has_rendered`
starts `false`; loop while `!has_rendered || (anything_emitted && !to_emit.is_empty())`. -/
def World.render (w : World σ) (st : σ) : Except Err Unit × World σ :=
  World.renderLoop st (w.console.to_emit.length + 2) true false w

/-- `SuperConsole::finalize`: one `Final`-mode pass, then the sink's teardown. -/
def World.finalize (w : World σ) (st : σ) : Except Err Unit × World σ :=
  match w.render_with_mode st .Final with
  | (.error e, w') => (.error e, w')
  | (.ok _, w') => w'.sinkFinalize

/-- `SuperConsole::clear`: ask the frame source for the erase bytes and hand
them to the sink, without consulting `should_render`. -/
def World.clear (w : World σ) : Except Err Unit × World σ :=
  match w.console.root.clearBytes with
  | .error e => (.error e, w)
  | .ok buffer => w.output buffer

/-- `SuperConsole::emit`: append to the Pending Log Queue; never renders. -/
def World.emit (w : World σ) (lines : Lines) : World σ :=
  { w with console := { w.console with to_emit := w.console.to_emit ++ lines } }

/-! ### Concrete instances used to exercise the theorems -/

/-- A sample log line: `tag` is its identity; every sample line is one
grapheme long. -/
def sampleLine (i : Nat) : Line := ⟨i, 1⟩

/-- A sample two-line frame, as a concrete frame source draws it. -/
def sampleFrame : Lines := [sampleLine 100, sampleLine 101]

/-- A concrete frame source whose draw always succeeds with `sampleFrame`. -/
def sampleRoot : FrameSource Unit :=
  { moveUpBytes := [BufItem.ctrl "MoveUp(2)"]
    draw := fun _ _ _ => .ok sampleFrame
    clearBytes := .ok [BufItem.ctrl "EraseRegion"] }

/-- Ten one-grapheme pending lines over `sampleRoot`, with an 80x80 fallback. -/
def sampleConsole : SuperConsole Unit :=
  { root := sampleRoot
    to_emit := (List.range 10).map sampleLine
    default_size := some ⟨80, 80⟩ }

/-- A fully permissive environment around `sampleConsole`: the terminal
reports 100x2, the sink always allows rendering and accepts every write. -/
def sampleWorld : World Unit :=
  { console := sampleConsole
    termSize := fun _ => .ok ⟨100, 2⟩
    sizeQueries := 0
    should_render := fun _ => true
    srCalls := 0
    writeResult := fun _ => none
    writeCalls := 0
    handed := []
    sinkFinalized := false
    finalizeResult := none }

/-- The world left behind by the single pass `sampleWorld.render` performs. -/
def c2After : World Unit :=
  (World.render_with_mode { sampleWorld with srCalls := sampleWorld.srCalls + 1 } ()
    DrawMode.Normal).2

/-- Three pending lines, for exercising a `Final`-mode pass. -/
def c4Console : SuperConsole Unit :=
  { sampleConsole with to_emit := [sampleLine 0, sampleLine 1, sampleLine 2] }

/-- The buffer a `Final`-mode pass composes from `c4Console` at any size. -/
def c4Buf : Buffer :=
  [BufItem.ctrl "MoveUp(2)", BufItem.text (sampleLine 0), BufItem.text (sampleLine 1),
   BufItem.text (sampleLine 2), BufItem.text (sampleLine 100), BufItem.text (sampleLine 101),
   BufItem.ctrl "Clear(FromCursorDown)"]

/-- `c4Console` with its queue fully drained. -/
def c4After : SuperConsole Unit := { c4Console with to_emit := [] }

/-- `sampleWorld` with the sink's backpressure gate closed. -/
def c5World : World Unit := { sampleWorld with should_render := fun _ => false }

/-- `sampleWorld` with a sink that refuses every write. -/
def c6World : World Unit := { sampleWorld with writeResult := fun _ => some "write refused" }

/-- A world where live size discovery fails and no fallback is configured. -/
def c9World : World Unit :=
  { sampleWorld with
      termSize := fun _ => .error "no tty"
      console := { sampleConsole with default_size := none } }

/-- `c6World`, to be driven through `finalize` (its `Final`-mode write fails). -/
def c10World : World Unit := c6World

/-- The world left behind by `c10World`'s failed `Final`-mode pass. -/
def c10After : World Unit := (c10World.render_with_mode () DrawMode.Final).2

/-! ### Helper lemmas -/

/-- Closed form of a `Normal`-mode `render_general` pass on a non-oversized
queue: the first `max (rows − frameHeight) MINIMUM_EMIT` queued lines go into
the buffer (after the reposition bytes, before the frame) and the rest stay
queued. -/
theorem render_general_normal_eq (c : SuperConsole σ) (buffer : Buffer) (st : σ)
    (size : Dimensions) (frame : Lines)
    (hbig : is_big c.to_emit = false)
    (hdraw : c.root.draw st size .Normal = .ok frame) :
    c.render_general buffer st .Normal size =
      .ok (buffer ++ c.root.moveUpBytes
            ++ (c.to_emit.take (max (size.y - frame.length) MINIMUM_EMIT)).map BufItem.text
            ++ frame.map BufItem.text ++ [BufItem.ctrl "Clear(FromCursorDown)"],
           { c with to_emit :=
              c.to_emit.drop (max (size.y - frame.length) MINIMUM_EMIT) }) := by
  simp [SuperConsole.render_general, hdraw, hbig, Lines.render, List.append_assoc]

/-- A successful `Normal`-mode pass never lengthens the queue, and leaves its
length unchanged only when the queue ends up empty (every positive drain
limit is at least `MINIMUM_EMIT = 5`). -/
theorem render_general_queue_spec (c : SuperConsole σ) (buffer : Buffer) (st : σ)
    (size : Dimensions) (buf' : Buffer) (c' : SuperConsole σ)
    (hres : c.render_general buffer st .Normal size = .ok (buf', c')) :
    c'.to_emit.length ≤ c.to_emit.length ∧
    (c'.to_emit.length = c.to_emit.length → c'.to_emit = []) := by
  cases hdraw : c.root.draw st size .Normal with
  | error e => simp [SuperConsole.render_general, hdraw] at hres
  | ok frame =>
    by_cases hbig : is_big c.to_emit
    · simp [SuperConsole.render_general, hdraw, hbig, Lines.render] at hres
      obtain ⟨-, h2⟩ := hres
      subst h2
      simp
    · rw [render_general_normal_eq c buffer st size frame
        (Bool.not_eq_true _ ▸ hbig) hdraw] at hres
      obtain ⟨-, h2⟩ := Prod.mk.injEq .. ▸ Except.ok.inj hres
      subst h2
      set L := max (size.y - frame.length) MINIMUM_EMIT with hL
      constructor
      · simp
      · intro hlen
        have h5 : 5 ≤ L := le_max_right _ _
        simp only [List.length_drop] at hlen
        have h0 : c.to_emit.length = 0 := by omega
        simp [List.eq_nil_of_length_eq_zero h0]

/-- A `Final`-mode pass, or any pass on an oversized queue, that returns
`ok` leaves the queue empty. -/
theorem render_general_drain_all (c : SuperConsole σ) (buffer : Buffer) (st : σ)
    (mode : DrawMode) (size : Dimensions) (buf' : Buffer) (c' : SuperConsole σ)
    (h : mode = .Final ∨ is_big c.to_emit = true)
    (hres : c.render_general buffer st mode size = .ok (buf', c')) :
    c'.to_emit = [] := by
  cases hdraw : c.root.draw st size mode with
  | error e => simp [SuperConsole.render_general, hdraw] at hres
  | ok frame =>
    rcases h with h | h
    · subst h
      simp [SuperConsole.render_general, hdraw, Lines.render] at hres
      obtain ⟨-, h2⟩ := hres
      subst h2
      rfl
    · cases mode with
      | Final =>
        simp [SuperConsole.render_general, hdraw, Lines.render] at hres
        obtain ⟨-, h2⟩ := hres
        subst h2
        rfl
      | Normal =>
        simp [SuperConsole.render_general, hdraw, h, Lines.render] at hres
        obtain ⟨-, h2⟩ := hres
        subst h2
        rfl

/-- A `render_with_mode` call queries the terminal size exactly once, never
consults `should_render`, never touches the sink teardown, and hands the sink
at most one buffer — whatever the mode and wherever it fails. -/
theorem render_with_mode_counters (w : World σ) (st : σ) (mode : DrawMode) :
    ((w.render_with_mode st mode).2).srCalls = w.srCalls ∧
    ((w.render_with_mode st mode).2).sizeQueries = w.sizeQueries + 1 ∧
    ((w.render_with_mode st mode).2).sinkFinalized = w.sinkFinalized ∧
    ((w.render_with_mode st mode).2).writeCalls ≤ w.writeCalls + 1 := by
  unfold World.render_with_mode World.output
  split
  · simp
  · split
    · simp
    · dsimp only
      split <;> simp

/-- A successful `Normal`-mode `render_with_mode` drains (never lengthens)
the queue, leaves its length unchanged only when the queue ends up empty,
and performs exactly one sink write. -/
theorem render_with_mode_ok_spec (w : World σ) (st : σ) (u : Unit) (w2 : World σ)
    (h : w.render_with_mode st .Normal = (.ok u, w2)) :
    w2.console.to_emit.length ≤ w.console.to_emit.length ∧
    (w2.console.to_emit.length = w.console.to_emit.length → w2.console.to_emit = []) ∧
    w2.writeCalls = w.writeCalls + 1 := by
  unfold World.render_with_mode at h
  split at h
  · exact absurd h (by simp)
  · rename_i size hsz
    split at h
    · exact absurd h (by simp)
    · rename_i buffer c' hr
      unfold World.output at h
      dsimp only at h
      split at h
      · obtain ⟨-, h2⟩ := Prod.mk.injEq .. ▸ h
        subst h2
        obtain ⟨hle, heq⟩ := render_general_queue_spec w.console [] st size buffer c' hr
        exact ⟨hle, heq, rfl⟩
      · exact absurd h (by simp)

/-- If size discovery fails with no usable fallback, or the frame source's
draw step fails, the pass propagates that error having only consumed the one
size query: the console (hence the queue) and the sink are untouched. -/
theorem render_with_mode_error_early (w : World σ) (st : σ) (mode : DrawMode) (e : Err)
    (h : w.console.size (w.termSize w.sizeQueries) = .error e ∨
         ∃ sz, w.console.size (w.termSize w.sizeQueries) = .ok sz ∧
               w.console.root.draw st sz mode = .error e) :
    w.render_with_mode st mode = (.error e, { w with sizeQueries := w.sizeQueries + 1 }) := by
  unfold World.render_with_mode
  rcases h with h | ⟨sz, hsz, hdraw⟩
  · rw [h]
  · rw [hsz]
    have hg : w.console.render_general [] st mode sz = .error e := by
      simp [SuperConsole.render_general, hdraw]
    dsimp only
    rw [hg]

/-- Once a pass has run (`has_rendered = true`), the loop exits as soon as
`anything_emitted && queue non-empty` is false, whatever fuel remains. -/
theorem renderLoop_stop (st : σ) (fuel : Nat) (a : Bool) (w : World σ)
    (h : (a && !w.console.to_emit.isEmpty) = false) :
    World.renderLoop st fuel a true w = (.ok (), w) := by
  unfold World.renderLoop
  simp [h]

/-- The `render` loop performs at most one composition pass: its first
iteration either breaks on `should_render` or runs one pass, and the loop
condition is false afterwards (a pass that left the queue length unchanged
left it empty). -/
theorem renderLoop_first (w : World σ) (st : σ) (fuel : Nat) :
    World.renderLoop st (fuel + 1) true false w =
      (if w.should_render w.srCalls then
        World.render_with_mode { w with srCalls := w.srCalls + 1 } st .Normal
      else (.ok (), { w with srCalls := w.srCalls + 1 })) := by
  rw [World.renderLoop]
  by_cases hsr : w.should_render w.srCalls
  · simp only [hsr, Bool.not_true, Bool.not_false, Bool.true_or, if_true, Bool.false_eq_true,
      if_false]
    cases hp : World.render_with_mode { w with srCalls := w.srCalls + 1 } st .Normal with
    | mk r w2 =>
      cases r with
      | error e => rfl
      | ok u =>
        cases u
        dsimp only
        apply renderLoop_stop
        cases hbeq : (w.console.to_emit.length == w2.console.to_emit.length) with
        | false => simp
        | true =>
          have hlen : w2.console.to_emit.length =
              ({ w with srCalls := w.srCalls + 1 } : World σ).console.to_emit.length :=
            (eq_of_beq hbeq).symm
          obtain ⟨-, himp, -⟩ :=
            render_with_mode_ok_spec { w with srCalls := w.srCalls + 1 } st () w2 hp
          simp [himp hlen]
  · simp [hsr]

/-- `render` is a single gated pass: if the first `should_render` answer is
false it stops having produced nothing; otherwise it performs exactly one
`Normal`-mode `render_with_mode` and stops. -/
theorem render_eq_single_pass (w : World σ) (st : σ) :
    w.render st =
      if w.should_render w.srCalls then
        World.render_with_mode { w with srCalls := w.srCalls + 1 } st .Normal
      else (.ok (), { w with srCalls := w.srCalls + 1 }) :=
  renderLoop_first w st (w.console.to_emit.length + 1)

/-! ### Claims -/

/-- C1: for every queue whose total grapheme length is at most the oversized
threshold (1,000,000), every terminal row count `R = size.y`, and every drawn
frame of `F = frame.length` lines, one `Normal`-mode `render_general` pass
drains exactly `min(queueLength, max(MINIMUM_EMIT, R − F))` lines from the
Pending Log Queue, in FIFO order (`R − F` saturating at 0, `MINIMUM_EMIT = 5`):
the buffer receives the first `max(MINIMUM_EMIT, R − F)` queued lines in
order and the queue keeps the remaining suffix, preserving relative order. -/
theorem C1_normal_pass_drains_min (c : SuperConsole σ) (buffer : Buffer) (st : σ)
    (size : Dimensions) (frame : Lines)
    (hsmall : (c.to_emit.map Line.len).sum ≤ MAX_GRAPHEME_BUFFER)
    (hdraw : c.root.draw st size .Normal = .ok frame) :
    MINIMUM_EMIT = 5 ∧
    c.render_general buffer st .Normal size =
      .ok (buffer ++ c.root.moveUpBytes
            ++ (c.to_emit.take (max MINIMUM_EMIT (size.y - frame.length))).map BufItem.text
            ++ frame.map BufItem.text ++ [BufItem.ctrl "Clear(FromCursorDown)"],
           { c with to_emit :=
              c.to_emit.drop (max MINIMUM_EMIT (size.y - frame.length)) }) ∧
    c.to_emit.length -
        (c.to_emit.drop (max MINIMUM_EMIT (size.y - frame.length))).length =
      min c.to_emit.length (max MINIMUM_EMIT (size.y - frame.length)) := by
  have hbig : is_big c.to_emit = false := by
    simp only [is_big, decide_eq_false_iff_not, not_lt]
    exact hsmall
  refine ⟨rfl, ?_, ?_⟩
  · rw [max_comm MINIMUM_EMIT]
    exact render_general_normal_eq c buffer st size frame hbig hdraw
  · simp only [List.length_drop]
    omega

/-- Witness for C1: ten one-grapheme lines, a two-line frame, a 100x2
terminal; the pass drains exactly `min(10, max(5, 2 − 2)) = 5` lines. -/
theorem C1_witness :
    ((sampleConsole.to_emit.map Line.len).sum ≤ MAX_GRAPHEME_BUFFER) ∧
    (sampleConsole.root.draw () ⟨100, 2⟩ .Normal = .ok sampleFrame) ∧
    (MINIMUM_EMIT = 5 ∧
     sampleConsole.render_general [] () .Normal ⟨100, 2⟩ =
       .ok ([] ++ sampleConsole.root.moveUpBytes
             ++ (sampleConsole.to_emit.take
                  (max MINIMUM_EMIT ((Dimensions.mk 100 2).y - sampleFrame.length))).map
                 BufItem.text
             ++ sampleFrame.map BufItem.text ++ [BufItem.ctrl "Clear(FromCursorDown)"],
            { sampleConsole with to_emit :=
               sampleConsole.to_emit.drop (max MINIMUM_EMIT ((Dimensions.mk 100 2).y - sampleFrame.length)) }) ∧
     sampleConsole.to_emit.length -
         (sampleConsole.to_emit.drop
           (max MINIMUM_EMIT ((Dimensions.mk 100 2).y - sampleFrame.length))).length =
       min sampleConsole.to_emit.length
         (max MINIMUM_EMIT ((Dimensions.mk 100 2).y - sampleFrame.length))) :=
  ⟨by decide, rfl,
   C1_normal_pass_drains_min sampleConsole [] () ⟨100, 2⟩ sampleFrame (by decide) rfl⟩

/-- C2: the render loop runs `progressed`/`hasRun` exactly as coded (this is
the definition of `World.render` via `World.renderLoop`), and in particular a
pass that drained at least one line makes the continuation condition false
even if the queue is still non-empty: when the first `should_render` answer
is true and the single `Normal`-mode pass succeeds leaving a non-empty
queue, `render` stops right after that pass — exactly one pass, exactly one
write, `should_render` consulted exactly once, the queue strictly shorter
but not empty. -/
theorem C2_loop_stops_after_draining_pass (w : World σ) (st : σ) (w2 : World σ)
    (hsr : w.should_render w.srCalls = true)
    (hpass : World.render_with_mode { w with srCalls := w.srCalls + 1 } st .Normal =
      (.ok (), w2))
    (hne : w2.console.to_emit ≠ []) :
    w.render st = (.ok (), w2) ∧
    w2.console.to_emit.length < w.console.to_emit.length ∧
    w2.writeCalls = w.writeCalls + 1 ∧
    w2.srCalls = w.srCalls + 1 := by
  obtain ⟨hle, himp, hwc⟩ :=
    render_with_mode_ok_spec { w with srCalls := w.srCalls + 1 } st () w2 hpass
  have hlt : w2.console.to_emit.length < w.console.to_emit.length := by
    rcases lt_or_eq_of_le hle with h | h
    · exact h
    · exact absurd (himp h) hne
  refine ⟨?_, hlt, hwc, ?_⟩
  · rw [render_eq_single_pass]
    simp only [hsr, if_true]
    exact hpass
  · have hc := (render_with_mode_counters { w with srCalls := w.srCalls + 1 } st .Normal).1
    rw [hpass] at hc
    exact hc

/-- Witness for C2: in `sampleWorld` (queue of ten lines, 100x2 terminal,
two-line frame) the single pass drains five lines, leaves five queued, and
`render` stops anyway. -/
theorem C2_witness :
    (sampleWorld.should_render sampleWorld.srCalls = true) ∧
    (World.render_with_mode { sampleWorld with srCalls := sampleWorld.srCalls + 1 } ()
        .Normal = (.ok (), c2After)) ∧
    (c2After.console.to_emit ≠ []) ∧
    (sampleWorld.render () = (.ok (), c2After) ∧
     c2After.console.to_emit.length < sampleWorld.console.to_emit.length ∧
     c2After.writeCalls = sampleWorld.writeCalls + 1 ∧
     c2After.srCalls = sampleWorld.srCalls + 1) :=
  ⟨rfl, rfl, by decide, C2_loop_stops_after_draining_pass sampleWorld () c2After rfl rfl
    (by decide)⟩

/-- C3: for every call to `render`, regardless of the queue's contents and
of the values `should_render` returns, the sink's write is invoked at most
once. -/
theorem C3_at_most_one_write (w : World σ) (st : σ) :
    ((w.render st).2).writeCalls ≤ w.writeCalls + 1 := by
  rw [render_eq_single_pass]
  by_cases hsr : w.should_render w.srCalls = true
  · simp only [hsr, if_true]
    exact (render_with_mode_counters { w with srCalls := w.srCalls + 1 } st .Normal).2.2.2
  · simp [hsr]

/-- C4: a `Final`-mode pass, or any pass on a queue whose total grapheme
length exceeds the oversized threshold, drains the entire Pending Log Queue
(the drain limit is unbounded), regardless of terminal rows and frame
height. -/
theorem C4_unbounded_drain (c : SuperConsole σ) (buffer : Buffer) (st : σ)
    (mode : DrawMode) (size : Dimensions) (buf' : Buffer) (c' : SuperConsole σ)
    (h : mode = .Final ∨ (c.to_emit.map Line.len).sum > MAX_GRAPHEME_BUFFER)
    (hres : c.render_general buffer st mode size = .ok (buf', c')) :
    c'.to_emit = [] := by
  apply render_general_drain_all c buffer st mode size buf' c' _ hres
  rcases h with h | h
  · exact Or.inl h
  · exact Or.inr (decide_eq_true h)

/-- Witness for C4: a `Final`-mode pass over three queued lines at 100x20
leaves the queue empty. -/
theorem C4_witness :
    (DrawMode.Final = DrawMode.Final ∨
      (c4Console.to_emit.map Line.len).sum > MAX_GRAPHEME_BUFFER) ∧
    (c4Console.render_general [] () .Final ⟨100, 20⟩ = .ok (c4Buf, c4After)) ∧
    c4After.to_emit = [] :=
  ⟨Or.inl rfl, rfl,
   C4_unbounded_drain c4Console [] () .Final ⟨100, 20⟩ c4Buf c4After (Or.inl rfl) rfl⟩

/-- C5: if the sink's `should_render` answers false, `render` writes zero
buffers, leaves the Pending Log Queue unchanged, and returns success (only
the one backpressure query happened). -/
theorem C5_gated_render_noop (w : World σ) (st : σ)
    (hsr : w.should_render w.srCalls = false) :
    w.render st = (.ok (), { w with srCalls := w.srCalls + 1 }) ∧
    ((w.render st).2).console.to_emit = w.console.to_emit ∧
    ((w.render st).2).handed = w.handed ∧
    ((w.render st).2).writeCalls = w.writeCalls := by
  have h := render_eq_single_pass w st
  rw [hsr] at h
  simp only [Bool.false_eq_true, if_false] at h
  refine ⟨h, ?_, ?_, ?_⟩ <;> rw [h]

/-- Witness for C5: with the gate closed and one line queued, `render`
produces nothing and the queue is untouched. -/
theorem C5_witness :
    (c5World.should_render c5World.srCalls = false) ∧
    (c5World.render () = (.ok (), { c5World with srCalls := c5World.srCalls + 1 }) ∧
     ((c5World.render ()).2).console.to_emit = c5World.console.to_emit ∧
     ((c5World.render ()).2).handed = c5World.handed ∧
     ((c5World.render ()).2).writeCalls = c5World.writeCalls) :=
  ⟨rfl, C5_gated_render_noop c5World () rfl⟩

/-- C6: within a single composition pass, log lines are removed from the
queue as they are composed into the buffer, before that buffer is handed to
the sink's write; when the write then fails, the pass returns the error with
the drained lines gone from the queue (only their suffix survives) — they
live only in the buffer that was handed to the failing write. -/
theorem C6_drained_lines_lost_on_write_failure (w : World σ) (st : σ)
    (size : Dimensions) (frame : Lines) (e : Err)
    (hsz : w.console.size (w.termSize w.sizeQueries) = .ok size)
    (hbig : is_big w.console.to_emit = false)
    (hdraw : w.console.root.draw st size .Normal = .ok frame)
    (hwr : w.writeResult w.writeCalls = some e) :
    w.render_with_mode st .Normal =
      (.error e,
       { w with
          sizeQueries := w.sizeQueries + 1
          console := { w.console with
            to_emit := w.console.to_emit.drop (max (size.y - frame.length) MINIMUM_EMIT) }
          writeCalls := w.writeCalls + 1
          handed := w.handed ++ [[] ++ w.console.root.moveUpBytes ++
            (w.console.to_emit.take (max (size.y - frame.length) MINIMUM_EMIT)).map
              BufItem.text ++
            frame.map BufItem.text ++ [BufItem.ctrl "Clear(FromCursorDown)"]] }) := by
  unfold World.render_with_mode
  rw [hsz]
  dsimp only
  rw [render_general_normal_eq w.console [] st size frame hbig hdraw]
  unfold World.output
  dsimp only
  rw [hwr]

/-- Witness for C6: in `c6World` the pass composes five of the ten queued
lines into the buffer, the write fails, and those five lines are gone from
the queue while the buffer that contains them was handed to the sink. -/
theorem C6_witness :
    (c6World.console.size (c6World.termSize c6World.sizeQueries) = .ok ⟨100, 2⟩) ∧
    (is_big c6World.console.to_emit = false) ∧
    (c6World.writeResult c6World.writeCalls = some "write refused") ∧
    c6World.render_with_mode () .Normal =
      (.error "write refused",
       { c6World with
          sizeQueries := c6World.sizeQueries + 1
          console := { c6World.console with
            to_emit := c6World.console.to_emit.drop
              (max ((Dimensions.mk 100 2).y - sampleFrame.length) MINIMUM_EMIT) }
          writeCalls := c6World.writeCalls + 1
          handed := c6World.handed ++ [[] ++ c6World.console.root.moveUpBytes ++
            (c6World.console.to_emit.take
              (max ((Dimensions.mk 100 2).y - sampleFrame.length) MINIMUM_EMIT)).map
                BufItem.text ++
            sampleFrame.map BufItem.text ++ [BufItem.ctrl "Clear(FromCursorDown)"]] }) :=
  ⟨rfl, by decide, rfl,
   C6_drained_lines_lost_on_write_failure c6World () ⟨100, 2⟩ sampleFrame "write refused"
     rfl (by decide) rfl rfl⟩

/-- C7: `clear` asks the frame source for the erase bytes and hands them to
the sink's write without consulting `should_render` (the backpressure
counter is untouched), and it never changes the console — in particular the
Pending Log Queue is unchanged in every state. -/
theorem C7_clear_unconditional (w : World σ) :
    ((w.clear).2).console = w.console ∧
    ((w.clear).2).srCalls = w.srCalls ∧
    ∀ b, w.console.root.clearBytes = .ok b →
      w.clear = w.output b ∧ ((w.clear).2).handed = w.handed ++ [b] := by
  have houtput : ∀ b, (w.output b).2 =
      { w with writeCalls := w.writeCalls + 1, handed := w.handed ++ [b] } := by
    intro b
    unfold World.output
    dsimp only
    split <;> rfl
  cases hc : w.console.root.clearBytes with
  | error e =>
    have hcl : w.clear = (.error e, w) := by
      unfold World.clear
      rw [hc]
    refine ⟨by rw [hcl], by rw [hcl], ?_⟩
    intro b hb
    cases hb
  | ok buffer =>
    have hcl : w.clear = w.output buffer := by
      unfold World.clear
      rw [hc]
    refine ⟨?_, ?_, ?_⟩
    · rw [hcl, houtput]
    · rw [hcl, houtput]
    · intro b hb
      injection hb with hb'
      subst hb'
      exact ⟨hcl, by rw [hcl, houtput]⟩

/-- Witness for C7: clearing `sampleWorld` leaves the console untouched,
skips the backpressure gate, and hands the erase bytes to the sink. -/
theorem C7_witness :
    ((sampleWorld.clear).2).console = sampleWorld.console ∧
    ((sampleWorld.clear).2).srCalls = sampleWorld.srCalls ∧
    (sampleWorld.console.root.clearBytes = .ok [BufItem.ctrl "EraseRegion"]) ∧
    sampleWorld.clear = sampleWorld.output [BufItem.ctrl "EraseRegion"] ∧
    ((sampleWorld.clear).2).handed = sampleWorld.handed ++ [[BufItem.ctrl "EraseRegion"]] :=
  ⟨(C7_clear_unconditional sampleWorld).1,
   (C7_clear_unconditional sampleWorld).2.1,
   rfl,
   ((C7_clear_unconditional sampleWorld).2.2 [BufItem.ctrl "EraseRegion"] rfl).1,
   ((C7_clear_unconditional sampleWorld).2.2 [BufItem.ctrl "EraseRegion"] rfl).2⟩

/-- C8: a composition pass queries the live terminal dimensions exactly
once; discovery failure resolves to the fallback Dimensions when one was
supplied at construction and otherwise surfaces the failure; a successful
discovery is passed through (no retry anywhere). -/
theorem C8_size_once_with_fallback (w : World σ) (st : σ) (mode : DrawMode) (e : Err)
    (d : Dimensions) :
    ((w.render_with_mode st mode).2).sizeQueries = w.sizeQueries + 1 ∧
    (∀ s, w.console.size (.ok s) = .ok s) ∧
    (w.console.default_size = some d → w.console.size (.error e) = .ok d) ∧
    (w.console.default_size = none → w.console.size (.error e) = .error e) := by
  refine ⟨(render_with_mode_counters w st mode).2.1, fun s => rfl, ?_, ?_⟩
  · intro h
    simp [SuperConsole.size, h]
  · intro h
    simp [SuperConsole.size, h]

/-- Witness for C8: `sampleWorld` has fallback 80x80; one pass bumps the
size-query counter to one, and a failed discovery resolves to the fallback. -/
theorem C8_witness :
    (sampleWorld.console.default_size = some ⟨80, 80⟩) ∧
    ((sampleWorld.render_with_mode () .Normal).2).sizeQueries =
      sampleWorld.sizeQueries + 1 ∧
    sampleWorld.console.size (.error "no tty") = .ok ⟨80, 80⟩ :=
  ⟨rfl,
   (C8_size_once_with_fallback sampleWorld () .Normal "no tty" ⟨80, 80⟩).1,
   (C8_size_once_with_fallback sampleWorld () .Normal "no tty" ⟨80, 80⟩).2.2.1 rfl⟩

/-- C9: if size discovery fails with no fallback configured, or the frame
source's draw step fails, the composition call returns that error with the
Pending Log Queue completely unchanged and with no buffer ever handed to the
sink — only the one size query happened. -/
theorem C9_early_failure_no_effects (w : World σ) (st : σ) (mode : DrawMode) (e : Err)
    (h : (w.termSize w.sizeQueries = .error e ∧ w.console.default_size = none) ∨
         (∃ sz, w.console.size (w.termSize w.sizeQueries) = .ok sz ∧
                w.console.root.draw st sz mode = .error e)) :
    w.render_with_mode st mode = (.error e, { w with sizeQueries := w.sizeQueries + 1 }) ∧
    ((w.render_with_mode st mode).2).console.to_emit = w.console.to_emit ∧
    ((w.render_with_mode st mode).2).handed = w.handed ∧
    ((w.render_with_mode st mode).2).writeCalls = w.writeCalls := by
  have hh : w.console.size (w.termSize w.sizeQueries) = .error e ∨
      ∃ sz, w.console.size (w.termSize w.sizeQueries) = .ok sz ∧
            w.console.root.draw st sz mode = .error e := by
    rcases h with ⟨h1, h2⟩ | hr
    · left
      rw [h1]
      simp [SuperConsole.size, h2]
    · exact Or.inr hr
  have hrun := render_with_mode_error_early w st mode e hh
  refine ⟨hrun, ?_, ?_, ?_⟩ <;> rw [hrun]

/-- Witness for C9: in `c9World` size discovery fails with no fallback; the
pass surfaces the error, the ten queued lines survive, nothing was handed to
the sink. -/
theorem C9_witness :
    ((c9World.termSize c9World.sizeQueries = .error "no tty" ∧
        c9World.console.default_size = none) ∨
      (∃ sz, c9World.console.size (c9World.termSize c9World.sizeQueries) = .ok sz ∧
             c9World.console.root.draw () sz .Normal = .error "no tty")) ∧
    (c9World.render_with_mode () .Normal =
      (.error "no tty", { c9World with sizeQueries := c9World.sizeQueries + 1 }) ∧
     ((c9World.render_with_mode () .Normal).2).console.to_emit =
       c9World.console.to_emit ∧
     ((c9World.render_with_mode () .Normal).2).handed = c9World.handed ∧
     ((c9World.render_with_mode () .Normal).2).writeCalls = c9World.writeCalls) :=
  ⟨Or.inl ⟨rfl, rfl⟩,
   C9_early_failure_no_effects c9World () .Normal "no tty" (Or.inl ⟨rfl, rfl⟩)⟩

/-- C10: in `finalize`, the sink's one-time teardown runs only after the
`Final`-mode pass and its write both succeed; if the pass or its write
fails, that error is returned and the teardown is never invoked. -/
theorem C10_teardown_only_after_success (w : World σ) (st : σ) :
    (∀ e w', w.render_with_mode st .Final = (.error e, w') →
        w.finalize st = (.error e, w') ∧ w'.sinkFinalized = w.sinkFinalized) ∧
    (∀ u w', w.render_with_mode st .Final = (.ok u, w') →
        w.finalize st = w'.sinkFinalize ∧ ((w.finalize st).2).sinkFinalized = true) := by
  constructor
  · intro e w' h
    constructor
    · unfold World.finalize
      rw [h]
    · have hc := (render_with_mode_counters w st .Final).2.2.1
      rw [h] at hc
      exact hc
  · intro u w' h
    cases u
    have hf : w.finalize st = w'.sinkFinalize := by
      unfold World.finalize
      rw [h]
    refine ⟨hf, ?_⟩
    rw [hf]
    unfold World.sinkFinalize
    dsimp only
    split <;> rfl

/-- Witness for C10: `c10World`'s `Final`-mode write fails, so `finalize`
returns the write error and the sink teardown was never invoked. -/
theorem C10_witness :
    (c10World.render_with_mode () DrawMode.Final = (.error "write refused", c10After)) ∧
    c10World.finalize () = (.error "write refused", c10After) ∧
    c10After.sinkFinalized = false :=
  ⟨rfl,
   ((C10_teardown_only_after_success c10World ()).1 "write refused" c10After rfl).1,
   ((C10_teardown_only_after_success c10World ()).1 "write refused" c10After rfl).2⟩

end Superconsole
